import Mathlib

/-!
Verification development for the metacluster restore workload
(`fdbserver/workloads/MetaclusterRestoreWorkload.actor.cpp`) and the
`TenantInfo` header (`fdbrpc/TenantInfo.h`).

The stateful C++ workload is shallowly embedded: the in-memory reference
model (`createdTenants`, `tenantNameIndex`, `tenantGroups`, per-cluster
tenant/group sets, `deletedTenants`) becomes an explicit record of
finitely-supported maps, and each operation of the workload becomes a pure
function on that record.  External database reads (tenant maps, group
indices, restore outcomes) are passed in as explicit inputs, and external
writes (tenant deletions, restore calls) are returned as explicit logs, so
that the control flow of the C++ code is preserved exactly.
-/

/-- `TenantData::AccessTime` (MetaclusterRestoreWorkload.actor.cpp:56).
The underlying enum values are NONE=0, BEFORE_BACKUP=1, DURING_BACKUP=2,
AFTER_BACKUP=3; the C++ code compares them with `<=`. -/
inductive AccessTime
  | NONE
  | BEFORE_BACKUP
  | DURING_BACKUP
  | AFTER_BACKUP
deriving DecidableEq, Repr

/-- Numeric value of the `AccessTime` enum, used for the `<=` comparisons at
MetaclusterRestoreWorkload.actor.cpp:961 and :965. -/
def AccessTime.toNat : AccessTime → Nat
  | .NONE => 0
  | .BEFORE_BACKUP => 1
  | .DURING_BACKUP => 2
  | .AFTER_BACKUP => 3

/-- `MetaclusterRestoreWorkload::TenantData`
(MetaclusterRestoreWorkload.actor.cpp:55-68).  Tenant names, cluster names
and tenant-group names are modelled as strings. -/
structure TenantData where
  name : String
  cluster : String
  tenantGroup : Option String
  createTime : AccessTime
  renameTime : AccessTime
  configureTime : AccessTime
deriving DecidableEq, Repr

/-- The default-constructed `TenantData` (field initialisers at
MetaclusterRestoreWorkload.actor.cpp:61-63), produced by `std::map`
`operator[]` on a missing key. -/
def TenantData.dfl : TenantData :=
  { name := "", cluster := "", tenantGroup := none,
    createTime := AccessTime.BEFORE_BACKUP,
    renameTime := AccessTime.NONE,
    configureTime := AccessTime.NONE }

/-- `MetaclusterRestoreWorkload::TenantGroupData`
(MetaclusterRestoreWorkload.actor.cpp:70-73).  The tenant-id set is a
membership function. -/
structure TenantGroupData where
  cluster : String
  tenants : Int → Bool

/-- The default-constructed `TenantGroupData` (empty cluster name, empty
tenant set), produced by `std::map` `operator[]` on a missing key. -/
def TenantGroupData.dfl : TenantGroupData :=
  { cluster := "", tenants := fun _ => false }

/-- The reference-model portion of `MetaclusterRestoreWorkload`
(MetaclusterRestoreWorkload.actor.cpp:76-84): tracked tenants by id, the
tenant-name index, tracked tenant groups, the per-cluster tenant and
tenant-group sets of `DataClusterData`, and the tombstone set
`deletedTenants`. -/
structure WorkloadModel where
  createdTenants : Int → Option TenantData
  tenantNameIndex : String → Option Int
  tenantGroups : String → Option TenantGroupData
  dataDbTenants : String → Int → Bool
  dataDbTenantGroups : String → String → Bool
  deletedTenants : Int → Bool

/-- `MetaclusterRestoreWorkload::removeTrackedTenant`
(MetaclusterRestoreWorkload.actor.cpp:294-307): if the id is tracked,
insert it into `deletedTenants`, erase it from its cluster's tenant set and
(when grouped) from its group's tenant set, and erase it from
`createdTenants`; otherwise do nothing.  `tenantGroups[g]` uses
`std::map` `operator[]` semantics (default-construct on a missing key). -/
def WorkloadModel.removeTrackedTenant (s : WorkloadModel) (tenantId : Int) :
    WorkloadModel :=
  match s.createdTenants tenantId with
  | none => s
  | some td =>
    { s with
      deletedTenants := fun i => if i = tenantId then true else s.deletedTenants i,
      dataDbTenants := fun c i =>
        if c = td.cluster ∧ i = tenantId then false else s.dataDbTenants c i,
      tenantGroups :=
        match td.tenantGroup with
        | none => s.tenantGroups
        | some g => fun g1 =>
            if g1 = g then
              let gd := (s.tenantGroups g).getD TenantGroupData.dfl
              some { cluster := gd.cluster,
                     tenants := fun i => if i = tenantId then false else gd.tenants i }
            else s.tenantGroups g1,
      createdTenants := fun i => if i = tenantId then none else s.createdTenants i }

/-! ### TenantInfo (fdbrpc/TenantInfo.h) -/

/-- `TenantInfo::INVALID_TENANT` (TenantInfo.h:33). -/
def INVALID_TENANT : Int := -1

/-- `TenantInfo::idToPrefix` (TenantInfo.h:62-65): the 8 bytes of the
64-bit two's-complement representation of `id`, most significant byte
first (`bigEndian64` swaps the little-endian in-memory order). -/
def idToPrefixBytes (id : Int) : List Nat :=
  (List.range 8).map (fun k => ((id % (2 : Int) ^ 64).toNat / 2 ^ (8 * (7 - k))) % 256)

/-- `TenantInfo` (TenantInfo.h:32-66).  The `prefix` member is called
`prefixBytes` here; the arena and the serialization-only knobs are not
part of the value. -/
structure TenantInfo where
  tenantId : Int
  prefixBytes : Option (List Nat)
  token : Option String
  trusted : Bool
  tenantAuthorized : Bool
deriving DecidableEq, Repr

/-- The default constructor `TenantInfo()` (TenantInfo.h:55) together with
the field initialisers at TenantInfo.h:42 and :45. -/
def TenantInfo.dfl : TenantInfo :=
  { tenantId := INVALID_TENANT, prefixBytes := none, token := none,
    trusted := false, tenantAuthorized := false }

/-- The constructor `TenantInfo(int64_t tenantId, Optional(WipedString)
token)` (TenantInfo.h:56-60): sets the prefix only for a valid tenant id. -/
def TenantInfo.make (tenantId : Int) (token : Option String) : TenantInfo :=
  { tenantId := tenantId,
    prefixBytes := if tenantId ≠ INVALID_TENANT then some (idToPrefixBytes tenantId) else none,
    token := token, trusted := false, tenantAuthorized := false }

/-- `TenantInfo::isAuthorized` (TenantInfo.h:52). -/
def TenantInfo.isAuthorized (t : TenantInfo) : Bool :=
  t.trusted || t.tenantAuthorized

/-- `TenantInfo::hasTenant` (TenantInfo.h:53). -/
def TenantInfo.hasTenant (t : TenantInfo) : Bool :=
  t.tenantId ≠ INVALID_TENANT

/-! ### Collision resolution (MetaclusterRestoreWorkload.actor.cpp:309-414)

A tenant collision is a tenant name together with the pair (data-cluster
id, management-cluster id), mirroring `TenantCollisions`
(MetaclusterRestoreWorkload.actor.cpp:311).  The external deletions issued
by the resolvers are returned as logs: `MetaclusterAPI::deleteTenant`
calls against the management cluster as a list of ids, and
`TenantAPI::deleteTenant` calls against the data cluster as a list of
(name, id) pairs. -/

/-- `MetaclusterRestoreWorkload::resolveTenantCollisions`
(MetaclusterRestoreWorkload.actor.cpp:315-338): for each collision, if the
data-cluster id is tracked, untrack and delete the management-side tenant;
otherwise untrack and delete the data-cluster tenant.  Returns the updated
model, the management-side deletions and the data-cluster deletions. -/
def resolveTenantCollisions (s : WorkloadModel) :
    List (String × Int × Int) → WorkloadModel × List Int × List (String × Int)
  | [] => (s, [], [])
  | (n, d, m) :: rest =>
    if (s.createdTenants d).isSome then
      let r := resolveTenantCollisions (s.removeTrackedTenant m) rest
      (r.1, m :: r.2.1, r.2.2)
    else
      let r := resolveTenantCollisions (s.removeTrackedTenant d) rest
      (r.1, r.2.1, (n, d) :: r.2.2)

/-- Sequentially apply `removeTrackedTenant` to every id in the list, as
the loops at MetaclusterRestoreWorkload.actor.cpp:382-385 and :403-406 do. -/
def WorkloadModel.removeAllTracked (s : WorkloadModel) : List Int → WorkloadModel
  | [] => s
  | t :: ts => (s.removeTrackedTenant t).removeAllTracked ts

/-- `MetaclusterRestoreWorkload::resolveGroupCollisions`
(MetaclusterRestoreWorkload.actor.cpp:357-414).  The group-index reads
(`getTenantsInGroup` against the management cluster and against the data
cluster) are supplied as the oracles `mgmtTenantsInGroup` and
`dataTenantsInGroup`.  For each colliding group: if the reference model's
cluster for the group equals the cluster being processed, every tenant of
the group read from the management cluster is untracked and a
management-side deletion is logged for it; otherwise every tenant of the
group read from the data cluster is untracked and the whole list is logged
as one data-cluster transaction of system-level deletes
(`TenantAPI::deleteTenantTransaction` inside a single `runTransactionVoid`).
Returns (model, management deletions, data-cluster delete transactions). -/
def resolveGroupCollisions (s : WorkloadModel) (clusterName : String)
    (mgmtTenantsInGroup dataTenantsInGroup : String → List Int) :
    List String → WorkloadModel × List Int × List (List Int)
  | [] => (s, [], [])
  | g :: rest =>
    if (s.tenantGroups g).map TenantGroupData.cluster = some clusterName then
      let s1 := s.removeAllTracked (mgmtTenantsInGroup g)
      let r := resolveGroupCollisions s1 clusterName mgmtTenantsInGroup dataTenantsInGroup rest
      (r.1, mgmtTenantsInGroup g ++ r.2.1, r.2.2)
    else
      let s1 := s.removeAllTracked (dataTenantsInGroup g)
      let r := resolveGroupCollisions s1 clusterName mgmtTenantsInGroup dataTenantsInGroup rest
      (r.1, r.2.1, dataTenantsInGroup g :: r.2.2)

/-! ### Capacity growth and the create/configure retry loops
(MetaclusterRestoreWorkload.actor.cpp:139-162, :633-663, :725-765) -/

/-- The error codes distinguished by the workload's catch blocks. -/
inductive FdbError
  | metacluster_no_capacity
  | cluster_no_capacity
  | tenant_already_exists
  | invalid_tenant_configuration
  | cluster_not_found
  | other (code : Nat)
deriving DecidableEq, Repr

/-- The capacity-related state touched by `increaseMetaclusterCapacity`:
the workload's `tenantGroupCapacity`, the list `dataDbIndex` of registered
data clusters, and each cluster's configured
`capacity.numTenantGroups`. -/
structure CapacityState where
  tenantGroupCapacity : Nat
  dataDbIndex : List String
  clusterCapacity : String → Nat

/-- `MetaclusterRestoreWorkload::increaseMetaclusterCapacity`
(MetaclusterRestoreWorkload.actor.cpp:139-162):
`tenantGroupCapacity = ceil(tenantGroupCapacity * 1.2)` and the new value
is written to `capacity.numTenantGroups` of every cluster in
`dataDbIndex` in one committed transaction.  `ceil(n * 1.2) = ceil(6n/5)`
is `(6n+4)/5` in natural-number division. -/
def increaseMetaclusterCapacity (s : CapacityState) : CapacityState :=
  let newCap := (6 * s.tenantGroupCapacity + 4) / 5
  { tenantGroupCapacity := newCap,
    dataDbIndex := s.dataDbIndex,
    clusterCapacity := fun c =>
      if c ∈ s.dataDbIndex then newCap else s.clusterCapacity c }

/-- One observed outcome of the transactional body of `createTenant` or
`configureTenant`: either the operation committed, or it failed with an
error code. -/
inductive OpOutcome
  | success
  | failure (e : FdbError)
deriving DecidableEq, Repr

/-- The retry loop shared by `createTenant`
(MetaclusterRestoreWorkload.actor.cpp:633-663, catching
`metacluster_no_capacity`) and `configureTenant`
(MetaclusterRestoreWorkload.actor.cpp:725-765, catching
`cluster_no_capacity`): on the caught capacity error, run
`increaseMetaclusterCapacity` and retry the same operation; on any other
error, rethrow; on success, return.  The trace lists the outcome of each
successive attempt; `none` means the trace ended with the loop still
running. -/
def opRetryLoop (capacityErr : FdbError) (s : CapacityState) :
    List OpOutcome → Option (Except FdbError CapacityState)
  | [] => none
  | OpOutcome.success :: _ => some (Except.ok s)
  | OpOutcome.failure e :: rest =>
    if e = capacityErr then opRetryLoop capacityErr (increaseMetaclusterCapacity s) rest
    else some (Except.error e)

/-! ### Reattaching a restored data cluster
(MetaclusterRestoreWorkload.actor.cpp:260-291) -/

/-- The `addToMetacluster` branch of
`MetaclusterRestoreWorkload::restoreDataCluster`
(MetaclusterRestoreWorkload.actor.cpp:260-291).  `doDryRun` is the
`deterministicRandom()->coinflip()` at line 263; `dryMsgs` and `realMsgs`
are the advisory messages the two `MetaclusterAPI::restoreCluster` calls
append to `messages`.  Returns the sequence of `restoreCluster` calls made
(`true` = dry run) paired with the final contents of `messages`; the code
sets `restoreHasMessages` to whether that final list is nonempty. -/
def restoreDataClusterAttach (doDryRun : Bool) (dryMsgs realMsgs : List String) :
    List Bool × List String :=
  let calls0 : List Bool := []
  let messages0 : List String := []
  -- the dry run appends dryMsgs to messages; `messages.clear()` then empties it
  let s1 :=
    if doDryRun then (calls0 ++ [true], (messages0 ++ dryMsgs).take 0)
    else (calls0, messages0)
  (s1.1 ++ [false], s1.2 ++ realMsgs)

/-! ### One management-cluster-restore attempt against a data cluster
(MetaclusterRestoreWorkload.actor.cpp:509-594)

`MetaclusterAPI::restoreCluster` and `MetaclusterAPI::removeCluster` are
declared in `fdbclient` and are not part of this repository's sources here,
so they are modelled from the spec. -/

/-- A tenant-map entry as read by `getDataClusterTenants`
(MetaclusterRestoreWorkload.actor.cpp:416-425) and by the consistency
checks; only the fields the workload inspects are kept
(`tenantName`, `tenantGroup`). -/
structure TenantMapEntry where
  tenantName : String
  tenantGroup : Option String
deriving DecidableEq, Repr

/-- The pair of cluster states one management-restore iteration touches:
the management cluster's directory content and the processed data
cluster's local tenant map (the list `getDataClusterTenants` returns). -/
structure ClusterPairState where
  mgmtTenants : List (Int × TenantMapEntry)
  dataTenants : List (Int × TenantMapEntry)
deriving DecidableEq, Repr

/-- The outcome the external restore call reports: success with the
directory content it installs and its advisory messages, or an error. -/
inductive RestoreOutcome
  | ok (newMgmt : List (Int × TenantMapEntry)) (msgs : List String)
  | err (e : FdbError)
deriving DecidableEq, Repr

/-- Modelled from the spec: `MetaclusterAPI::restoreCluster` called with
`ApplyManagementClusterUpdates::False` (the management-restore mode, spec
section 4.3) reads the data cluster's tenant map and writes only the
management cluster's directory; a dry run commits nothing
(spec glossary: a dry run reports messages without committing changes). -/
def restoreClusterNoApply (st : ClusterPairState) (dryRun : Bool)
    (outcome : RestoreOutcome) : ClusterPairState × Except FdbError (List String) :=
  match outcome with
  | RestoreOutcome.ok newMgmt msgs =>
    (if dryRun then st else { st with mgmtTenants := newMgmt }, Except.ok msgs)
  | RestoreOutcome.err e => (st, Except.error e)

/-- Modelled from the spec: `MetaclusterAPI::removeCluster` on the
management cluster (MetaclusterRestoreWorkload.actor.cpp:560, removing the
partially restored cluster) deletes the cluster's registration and tenant
entries from the management directory only; `removedMgmt` is the directory
content it leaves behind. -/
def removeClusterMgmt (st : ClusterPairState)
    (removedMgmt : List (Int × TenantMapEntry)) : ClusterPairState :=
  { st with mgmtTenants := removedMgmt }

/-- One iteration of the `while (!completed)` loop of
`restoreManagementCluster` (MetaclusterRestoreWorkload.actor.cpp:509-580),
from the pre-attempt snapshot of the data cluster's tenants to the
post-attempt snapshot: optionally a dry-run `restoreCluster`
(coinflip at line 518, messages cleared at line 536), then the real
`restoreCluster`; on a failure the partially restored cluster is removed
from the management directory.  Returns the resulting cluster states, the
`completed` flag, and the retained messages. -/
def managementRestoreAttempt (st : ClusterPairState) (doDryRun : Bool)
    (dryOutcome realOutcome : RestoreOutcome)
    (removedMgmt : List (Int × TenantMapEntry)) :
    ClusterPairState × Bool × List String :=
  let st1 := if doDryRun then (restoreClusterNoApply st true dryOutcome).1 else st
  match restoreClusterNoApply st1 false realOutcome with
  | (st2, Except.ok msgs) => (st2, true, msgs)
  | (st2, Except.error _) => (removeClusterMgmt st2 removedMgmt, false, [])

/-! ### The consistency checker
(MetaclusterRestoreWorkload.actor.cpp:916-1056) -/

/-- `std::map::find` on the tenant map read from a cluster. -/
def lookupTenant (m : List (Int × TenantMapEntry)) (tenantId : Int) :
    Option TenantMapEntry :=
  match m with
  | [] => none
  | (i, e) :: rest => if i = tenantId then some e else lookupTenant rest tenantId

/-- The per-tracked-tenant body of the restored branch of
`checkDataCluster` (MetaclusterRestoreWorkload.actor.cpp:953-973):
returns whether the assertions hold and the tenant's contribution to
`expectedTenantCount`.  `createdTenants[tenantId]` uses `std::map`
`operator[]` semantics. -/
def checkTrackedTenant (s : WorkloadModel) (recoverManagementCluster : Bool)
    (clusterName : String) (tenantMap : List (Int × TenantMapEntry))
    (tenantId : Int) : Bool × Nat :=
  let td := (s.createdTenants tenantId).getD TenantData.dfl
  if td.createTime = AccessTime.BEFORE_BACKUP then
    match lookupTenant tenantMap tenantId with
    | none => (false, 1)
    | some entry =>
      (decide (td.cluster = clusterName)
        && (if recoverManagementCluster = false
               ∨ td.configureTime.toNat ≤ AccessTime.toNat AccessTime.BEFORE_BACKUP
            then decide (entry.tenantGroup = td.tenantGroup) else true)
        && (if recoverManagementCluster = false
               ∨ td.renameTime.toNat ≤ AccessTime.toNat AccessTime.BEFORE_BACKUP
            then decide (entry.tenantName = td.name) else true), 1)
  else if td.createTime = AccessTime.AFTER_BACKUP then
    (decide (lookupTenant tenantMap tenantId = none), 0)
  else
    match lookupTenant tenantMap tenantId with
    | some _ => (true, 1)
    | none => (true, 0)

/-- The loop over `clusterData.tenants` in the restored branch of
`checkDataCluster` (MetaclusterRestoreWorkload.actor.cpp:953-973):
conjunction of the per-tenant assertions and the accumulated
`expectedTenantCount`. -/
def checkTrackedTenants (s : WorkloadModel) (recoverManagementCluster : Bool)
    (clusterName : String) (tenantMap : List (Int × TenantMapEntry)) :
    List Int → Bool × Nat
  | [] => (true, 0)
  | tid :: rest =>
    let head := checkTrackedTenant s recoverManagementCluster clusterName tenantMap tid
    let tail := checkTrackedTenants s recoverManagementCluster clusterName tenantMap rest
    (head.1 && tail.1, head.2 + tail.2)

/-- The loop over the observed tenant map looking for untracked tenants
(MetaclusterRestoreWorkload.actor.cpp:976-983): every entry whose id is
not in `clusterData.tenants` must satisfy `recoverManagementCluster` and
be in `deletedTenants`; returns the assertions' conjunction and
`unexpectedTenants`. -/
def checkUntrackedTenants (s : WorkloadModel) (recoverManagementCluster : Bool)
    (clusterTenants : List Int) :
    List (Int × TenantMapEntry) → Bool × Nat
  | [] => (true, 0)
  | (tid, _) :: rest =>
    let tail := checkUntrackedTenants s recoverManagementCluster clusterTenants rest
    if tid ∈ clusterTenants then tail
    else ((recoverManagementCluster && s.deletedTenants tid) && tail.1, tail.2 + 1)

/-- The restored branch of `checkDataCluster`
(MetaclusterRestoreWorkload.actor.cpp:950-986): the tracked-tenant
assertions, the untracked-tenant assertions, and the final
`ASSERT_EQ(tenantMap.size() - unexpectedTenants, expectedTenantCount)`. -/
def checkDataClusterRestored (s : WorkloadModel) (recoverManagementCluster : Bool)
    (clusterName : String) (clusterTenants : List Int)
    (tenantMap : List (Int × TenantMapEntry)) : Bool :=
  let tracked := checkTrackedTenants s recoverManagementCluster clusterName tenantMap clusterTenants
  let untracked := checkUntrackedTenants s recoverManagementCluster clusterTenants tenantMap
  tracked.1 && untracked.1 && decide (tenantMap.length - untracked.2 = tracked.2)

/-- The untracked-tenant loop of `checkTenants` over the management
cluster's tenant map (MetaclusterRestoreWorkload.actor.cpp:1047-1053):
every id not in `createdTenants` must be in `deletedTenants`, and both
`recoverManagementCluster` and `recoverDataClusters` must hold. -/
def checkManagementUntracked (s : WorkloadModel)
    (recoverManagementCluster recoverDataClusters : Bool) :
    List (Int × TenantMapEntry) → Bool
  | [] => true
  | (tid, _) :: rest =>
    (if (s.createdTenants tid).isSome then true
     else s.deletedTenants tid && recoverManagementCluster && recoverDataClusters)
    && checkManagementUntracked s recoverManagementCluster recoverDataClusters rest

/-! ### Concrete states used to exercise the theorems -/

/-- A concrete reference-model state: tenant 5 is tracked on cluster
`c1` in group `g1`; no other tenant, name or group exists; nothing is
tombstoned. -/
def wmEx : WorkloadModel :=
  { createdTenants := fun i =>
      if i = 5 then
        some { name := "t5", cluster := "c1", tenantGroup := some "g1",
               createTime := AccessTime.BEFORE_BACKUP,
               renameTime := AccessTime.NONE, configureTime := AccessTime.NONE }
      else none,
    tenantNameIndex := fun n => if n = "t5" then some 5 else none,
    tenantGroups := fun g =>
      if g = "g1" then
        some { cluster := "c1", tenants := fun i => if i = 5 then true else false }
      else none,
    dataDbTenants := fun c i => if c = "c1" ∧ i = 5 then true else false,
    dataDbTenantGroups := fun c g => if c = "c1" ∧ g = "g1" then true else false,
    deletedTenants := fun _ => false }

/-- A concrete reference-model state for the consistency checker: tenants
1 (created BEFORE_BACKUP), 2 (AFTER_BACKUP) and 3 (DURING_BACKUP) are
tracked on cluster `c1` with no groups; tenant 4 is tombstoned. -/
def wmChk : WorkloadModel :=
  { createdTenants := fun i =>
      if i = 1 then
        some { name := "a1", cluster := "c1", tenantGroup := none,
               createTime := AccessTime.BEFORE_BACKUP,
               renameTime := AccessTime.NONE, configureTime := AccessTime.NONE }
      else if i = 2 then
        some { name := "a2", cluster := "c1", tenantGroup := none,
               createTime := AccessTime.AFTER_BACKUP,
               renameTime := AccessTime.NONE, configureTime := AccessTime.NONE }
      else if i = 3 then
        some { name := "a3", cluster := "c1", tenantGroup := none,
               createTime := AccessTime.DURING_BACKUP,
               renameTime := AccessTime.NONE, configureTime := AccessTime.NONE }
      else none,
    tenantNameIndex := fun n =>
      if n = "a1" then some 1 else if n = "a2" then some 2
      else if n = "a3" then some 3 else none,
    tenantGroups := fun _ => none,
    dataDbTenants := fun c i => if c = "c1" ∧ (i = 1 ∨ i = 2 ∨ i = 3) then true else false,
    dataDbTenantGroups := fun _ _ => false,
    deletedTenants := fun i => if i = 4 then true else false }

/-- The tenant map observed on cluster `c1` after its restore: the
BEFORE_BACKUP tenant 1 and the DURING_BACKUP tenant 3 are present, and
the tombstoned tenant 4 reappeared. -/
def tmChk : List (Int × TenantMapEntry) :=
  [(1, { tenantName := "a1", tenantGroup := none }),
   (3, { tenantName := "a3", tenantGroup := none }),
   (4, { tenantName := "zz", tenantGroup := none })]

/-- The management cluster's tenant map: the tracked tenant 1 and the
tombstoned tenant 4. -/
def mgmtTmChk : List (Int × TenantMapEntry) :=
  [(1, { tenantName := "a1", tenantGroup := none }),
   (4, { tenantName := "zz", tenantGroup := none })]

/-- A reference-model state with one tenant created BEFORE_BACKUP whose
rename happened DURING_BACKUP (tracked name `new`). -/
def wmRen : WorkloadModel :=
  { createdTenants := fun i =>
      if i = 1 then
        some { name := "new", cluster := "c1", tenantGroup := none,
               createTime := AccessTime.BEFORE_BACKUP,
               renameTime := AccessTime.DURING_BACKUP,
               configureTime := AccessTime.NONE }
      else none,
    tenantNameIndex := fun n => if n = "new" then some 1 else none,
    tenantGroups := fun _ => none,
    dataDbTenants := fun c i => if c = "c1" ∧ i = 1 then true else false,
    dataDbTenantGroups := fun _ _ => false,
    deletedTenants := fun _ => false }

/-- The tenant map observed on the restored cluster of `wmRen`: the
restore rolled the DURING_BACKUP rename back to the pre-backup name
`old`. -/
def tmRen : List (Int × TenantMapEntry) :=
  [(1, { tenantName := "old", tenantGroup := none })]

/-! ### Helper lemmas -/

theorem removeTrackedTenant_not_created (s : WorkloadModel) (tid i : Int)
    (h : s.createdTenants i = none) :
    (s.removeTrackedTenant tid).createdTenants i = none := by
  unfold WorkloadModel.removeTrackedTenant
  cases hc : s.createdTenants tid with
  | none => exact h
  | some td =>
    by_cases hi : i = tid <;> simp [hi, h]

theorem removeTrackedTenant_created_self (s : WorkloadModel) (tid : Int) :
    (s.removeTrackedTenant tid).createdTenants tid = none := by
  unfold WorkloadModel.removeTrackedTenant
  cases hc : s.createdTenants tid with
  | none => exact hc
  | some td => simp

/-- The 8-byte big-endian prefix decodes back to the 64-bit value of the
tenant id: folding the bytes most-significant-first reconstructs
`id mod 2^64`. -/
theorem idToPrefixBytes_foldl (id : Int) :
    (idToPrefixBytes id).foldl (fun acc b => acc * 256 + b) 0
      = (id % (2 : Int) ^ 64).toNat := by
  have h0 : (0 : Int) ≤ id % 2 ^ 64 := Int.emod_nonneg id (by norm_num)
  have h1 : id % 2 ^ 64 < 2 ^ 64 := Int.emod_lt_of_pos id (by norm_num)
  have h2 : (id % (2 : Int) ^ 64).toNat < 18446744073709551616 := by omega
  set u := (id % (2 : Int) ^ 64).toNat with hu
  show (((((((0 * 256 + u / 2 ^ 56 % 256) * 256 + u / 2 ^ 48 % 256) * 256
      + u / 2 ^ 40 % 256) * 256 + u / 2 ^ 32 % 256) * 256 + u / 2 ^ 24 % 256) * 256
      + u / 2 ^ 16 % 256) * 256 + u / 2 ^ 8 % 256) * 256 + u / 2 ^ 0 % 256 = u
  norm_num
  omega

/-- `ceil(n * 1.2)` over the rationals agrees with `(6n+4)/5` in
natural-number division. -/
theorem natCeil_sixFifths (n : Nat) :
    Nat.ceil ((1.2 : ℚ) * n) = (6 * n + 4) / 5 := by
  have h12 : (1.2 : ℚ) = 6 / 5 := by norm_num
  rw [h12]
  rcases Nat.eq_zero_or_pos n with h | h
  · subst h; simp
  · rw [Nat.ceil_eq_iff (by omega)]
    constructor
    · rw [show (6 : ℚ) / 5 * n = (6 * n : ℚ) / 5 by ring,
          lt_div_iff₀ (by norm_num : (0 : ℚ) < 5)]
      have key : ((6 * n + 4) / 5 - 1) * 5 < 6 * n := by omega
      exact_mod_cast key
    · rw [show (6 : ℚ) / 5 * n = (6 * n : ℚ) / 5 by ring,
          div_le_iff₀ (by norm_num : (0 : ℚ) < 5)]
      have key : 6 * n ≤ ((6 * n + 4) / 5) * 5 := by omega
      exact_mod_cast key

/-! ### Claim theorems -/

/-- C10: a `TenantInfo` built from a 64-bit tenant id has `hasTenant`
true iff the id differs from `INVALID_TENANT`; for a valid id the prefix
is present and is the 8-byte big-endian encoding of the id; a
default-constructed `TenantInfo` has the invalid id, no prefix, and is
not authorized; `isAuthorized` is true exactly when the peer is trusted
or the tenant token was validated. -/
theorem tenantInfo_make_spec (t : Int) (tok : Option String) :
    ((TenantInfo.make t tok).hasTenant = true ↔ t ≠ INVALID_TENANT)
    ∧ (t ≠ INVALID_TENANT →
        (TenantInfo.make t tok).prefixBytes = some (idToPrefixBytes t)
        ∧ (idToPrefixBytes t).length = 8
        ∧ (idToPrefixBytes t).foldl (fun acc b => acc * 256 + b) 0
            = (t % (2 : Int) ^ 64).toNat)
    ∧ (t = INVALID_TENANT → (TenantInfo.make t tok).prefixBytes = none)
    ∧ TenantInfo.dfl.tenantId = INVALID_TENANT
    ∧ TenantInfo.dfl.prefixBytes = none
    ∧ TenantInfo.dfl.isAuthorized = false
    ∧ (∀ ti : TenantInfo, ti.isAuthorized = true ↔ (ti.trusted = true ∨ ti.tenantAuthorized = true)) := by
  refine ⟨?_, ?_, ?_, rfl, rfl, rfl, ?_⟩
  · simp [TenantInfo.make, TenantInfo.hasTenant]
  · intro h
    refine ⟨by simp [TenantInfo.make, h], by simp [idToPrefixBytes], idToPrefixBytes_foldl t⟩
  · intro h
    simp [TenantInfo.make, h]
  · intro ti
    simp [TenantInfo.isAuthorized]

/-- C10 witness: the theorem applied at tenant id 3. -/
theorem tenantInfo_make_witness :
    (TenantInfo.make 3 none).prefixBytes = some (idToPrefixBytes 3)
    ∧ (idToPrefixBytes 3).length = 8
    ∧ (idToPrefixBytes 3).foldl (fun acc b => acc * 256 + b) 0
        = ((3 : Int) % (2 : Int) ^ 64).toNat :=
  (tenantInfo_make_spec 3 none).2.1 (by decide)

/-- C9: `removeTrackedTenant` on a tracked id removes it from
`createdTenants`, from its cluster's tenant set and (if grouped) from its
group's tenant set, adds it to the tombstone set, and changes nothing
else — the tenant-name index still maps the removed tenant's name to its
id, the emptied group stays in the group map, and the cluster's group set
is untouched; on an untracked id the call changes nothing at all. -/
theorem removeTrackedTenant_spec (s : WorkloadModel) (tid : Int) :
    (∀ td, s.createdTenants tid = some td →
      (s.removeTrackedTenant tid).createdTenants tid = none
      ∧ (∀ i, i ≠ tid → (s.removeTrackedTenant tid).createdTenants i = s.createdTenants i)
      ∧ (s.removeTrackedTenant tid).deletedTenants tid = true
      ∧ (∀ i, i ≠ tid → (s.removeTrackedTenant tid).deletedTenants i = s.deletedTenants i)
      ∧ (s.removeTrackedTenant tid).dataDbTenants td.cluster tid = false
      ∧ (∀ c i, ¬(c = td.cluster ∧ i = tid) →
          (s.removeTrackedTenant tid).dataDbTenants c i = s.dataDbTenants c i)
      ∧ (∀ g, td.tenantGroup = some g →
          ∃ gd1, (s.removeTrackedTenant tid).tenantGroups g = some gd1
            ∧ gd1.cluster = ((s.tenantGroups g).getD TenantGroupData.dfl).cluster
            ∧ gd1.tenants tid = false
            ∧ ∀ i, i ≠ tid →
                gd1.tenants i = ((s.tenantGroups g).getD TenantGroupData.dfl).tenants i)
      ∧ (∀ g1, td.tenantGroup ≠ some g1 →
          (s.removeTrackedTenant tid).tenantGroups g1 = s.tenantGroups g1)
      ∧ (s.removeTrackedTenant tid).tenantNameIndex = s.tenantNameIndex
      ∧ (∀ nm, s.tenantNameIndex nm = some tid →
          (s.removeTrackedTenant tid).tenantNameIndex nm = some tid)
      ∧ (s.removeTrackedTenant tid).dataDbTenantGroups = s.dataDbTenantGroups)
    ∧ (s.createdTenants tid = none → s.removeTrackedTenant tid = s) := by
  constructor
  · intro td h
    have hs : s.removeTrackedTenant tid =
        { createdTenants := fun i => if i = tid then none else s.createdTenants i,
          tenantNameIndex := s.tenantNameIndex,
          tenantGroups :=
            match td.tenantGroup with
            | none => s.tenantGroups
            | some g => fun g1 =>
                if g1 = g then
                  let gd := (s.tenantGroups g).getD TenantGroupData.dfl
                  some { cluster := gd.cluster,
                         tenants := fun i => if i = tid then false else gd.tenants i }
                else s.tenantGroups g1,
          dataDbTenants := fun c i =>
            if c = td.cluster ∧ i = tid then false else s.dataDbTenants c i,
          dataDbTenantGroups := s.dataDbTenantGroups,
          deletedTenants := fun i => if i = tid then true else s.deletedTenants i } := by
      unfold WorkloadModel.removeTrackedTenant
      rw [h]
    rw [hs]
    refine ⟨by simp, ?_, by simp, ?_, by simp, ?_, ?_, ?_, rfl, ?_, rfl⟩
    · intro i hi; simp [hi]
    · intro i hi; simp [hi]
    · intro c i hci
      show (if c = td.cluster ∧ i = tid then false else s.dataDbTenants c i) = s.dataDbTenants c i
      rw [if_neg hci]
    · intro g hg
      rw [hg]
      refine ⟨{ cluster := ((s.tenantGroups g).getD TenantGroupData.dfl).cluster,
                tenants := fun i =>
                  if i = tid then false
                  else ((s.tenantGroups g).getD TenantGroupData.dfl).tenants i },
              by simp, rfl, by simp, ?_⟩
      intro i hi
      simp [hi]
    · intro g1 hne
      cases hgt : td.tenantGroup with
      | none => rfl
      | some g =>
        have hgg : ¬ g1 = g := fun e => hne (by rw [hgt, e])
        simp [hgg]
    · intro nm hm
      exact hm
  · intro h
    unfold WorkloadModel.removeTrackedTenant
    rw [h]

/-- C9 witness: the theorem applied to the concrete state `wmEx` at the
tracked id 5 and at the untracked id 7. -/
theorem removeTrackedTenant_spec_witness :
    (wmEx.removeTrackedTenant 5).createdTenants 5 = none
    ∧ (wmEx.removeTrackedTenant 5).deletedTenants 5 = true
    ∧ (wmEx.removeTrackedTenant 5).tenantNameIndex = wmEx.tenantNameIndex
    ∧ wmEx.removeTrackedTenant 7 = wmEx := by
  have h := (removeTrackedTenant_spec wmEx 5).1
      { name := "t5", cluster := "c1", tenantGroup := some "g1",
        createTime := AccessTime.BEFORE_BACKUP,
        renameTime := AccessTime.NONE, configureTime := AccessTime.NONE } rfl
  obtain ⟨c1, _, c3, _, _, _, _, _, c9, _, _⟩ := h
  exact ⟨c1, c3, c9, (removeTrackedTenant_spec wmEx 7).2 rfl⟩

/-- C1: one management-cluster-restore attempt against a data cluster —
optional dry run, real restore call, and removal of the partially
restored cluster on failure — leaves the data cluster's local tenant map
(every id and entry, in order) unchanged, whether or not the attempt
succeeds. -/
theorem managementRestoreAttempt_preserves_data (st : ClusterPairState)
    (doDryRun : Bool) (dryOutcome realOutcome : RestoreOutcome)
    (removedMgmt : List (Int × TenantMapEntry)) :
    (managementRestoreAttempt st doDryRun dryOutcome realOutcome removedMgmt).1.dataTenants
      = st.dataTenants := by
  unfold managementRestoreAttempt restoreClusterNoApply removeClusterMgmt
  cases realOutcome <;> cases dryOutcome <;> cases doDryRun <;> simp

/-- C8 counterexample: with the dry-run coinflip false, the reattachment
makes no dry-run restore call at all — the only `restoreCluster` call is
the real attach, refuting the claim that a dry run precedes every real
attach. -/
theorem restoreDataClusterAttach_cex :
    (restoreDataClusterAttach false ["dry advisory"] ["real advisory"]).1 = [false]
    ∧ true ∉ (restoreDataClusterAttach false ["dry advisory"] ["real advisory"]).1 := by
  decide

/-- C8 (amended): when the random dry-run branch is taken, the attempt is
a dry-run restore followed by the real attach, otherwise only the real
attach runs; in either case the dry run's advisory messages are discarded
and exactly the real attach's messages are retained, both for
data-cluster reattachment and for a management-restore attempt. -/
theorem restoreDataClusterAttach_spec (doDryRun : Bool) (dryMsgs realMsgs : List String) :
    (restoreDataClusterAttach doDryRun dryMsgs realMsgs).1
        = (if doDryRun then [true, false] else [false])
    ∧ (restoreDataClusterAttach doDryRun dryMsgs realMsgs).2 = realMsgs
    ∧ (∀ st dryOutcome newMgmt msgs removedMgmt,
        (managementRestoreAttempt st doDryRun dryOutcome
            (RestoreOutcome.ok newMgmt msgs) removedMgmt).2.2 = msgs) := by
  refine ⟨?_, ?_, ?_⟩
  · cases doDryRun <;> simp [restoreDataClusterAttach]
  · cases doDryRun <;> simp [restoreDataClusterAttach]
  · intro st dryOutcome newMgmt msgs removedMgmt
    unfold managementRestoreAttempt restoreClusterNoApply
    cases dryOutcome <;> cases doDryRun <;> simp

/-- C7: on a capacity-exhausted failure, the configured group capacity is
raised to `ceil(1.2 * previous)`, the new value is written to every
registered data cluster, and the same operation is retried with the
increased capacity; a non-capacity error aborts the loop, and a capacity
error is never surfaced to the caller. -/
theorem capacityRetry_spec (s : CapacityState) (capacityErr : FdbError)
    (rest trace : List OpOutcome) (e : FdbError) :
    ((increaseMetaclusterCapacity s).tenantGroupCapacity
        = Nat.ceil ((1.2 : ℚ) * s.tenantGroupCapacity))
    ∧ (∀ c, c ∈ s.dataDbIndex →
        (increaseMetaclusterCapacity s).clusterCapacity c
          = (increaseMetaclusterCapacity s).tenantGroupCapacity)
    ∧ (opRetryLoop capacityErr s (OpOutcome.failure capacityErr :: rest)
        = opRetryLoop capacityErr (increaseMetaclusterCapacity s) rest)
    ∧ (∀ e2, e2 ≠ capacityErr →
        opRetryLoop capacityErr s (OpOutcome.failure e2 :: rest)
          = some (Except.error e2))
    ∧ (opRetryLoop capacityErr s trace = some (Except.error e) →
        e ≠ capacityErr ∧ OpOutcome.failure e ∈ trace) := by
  refine ⟨(natCeil_sixFifths s.tenantGroupCapacity).symm, ?_, ?_, ?_, ?_⟩
  · intro c hc
    simp [increaseMetaclusterCapacity, hc]
  · simp [opRetryLoop]
  · intro e2 he2
    simp [opRetryLoop, he2]
  · induction trace generalizing s with
    | nil => intro hcon; simp [opRetryLoop] at hcon
    | cons o rest2 ih =>
      intro hc
      cases o with
      | success => simp [opRetryLoop] at hc
      | failure e3 =>
        by_cases h3 : e3 = capacityErr
        · subst h3
          rw [show opRetryLoop e3 s (OpOutcome.failure e3 :: rest2)
                = opRetryLoop e3 (increaseMetaclusterCapacity s) rest2 by simp [opRetryLoop]] at hc
          obtain ⟨hne, hmem⟩ := ih _ hc
          exact ⟨hne, List.mem_cons_of_mem _ hmem⟩
        · rw [show opRetryLoop capacityErr s (OpOutcome.failure e3 :: rest2)
                = some (Except.error e3) by simp [opRetryLoop, h3]] at hc
          have he3 : e = e3 := by
            have := Option.some.inj hc
            cases this
            rfl
          subst he3
          exact ⟨h3, List.mem_cons_self _ _⟩

/-- A concrete capacity state: capacity 10 with two registered data
clusters. -/
def csEx : CapacityState :=
  { tenantGroupCapacity := 10, dataDbIndex := ["c1", "c2"], clusterCapacity := fun _ => 10 }

/-- C7 witness: the theorem applied to `csEx`, a trace that fails once on
capacity and then on a foreign error. -/
theorem capacityRetry_spec_witness :
    (increaseMetaclusterCapacity csEx).clusterCapacity "c1"
        = (increaseMetaclusterCapacity csEx).tenantGroupCapacity
    ∧ FdbError.other 7 ≠ FdbError.metacluster_no_capacity
    ∧ OpOutcome.failure (FdbError.other 7)
        ∈ [OpOutcome.failure FdbError.metacluster_no_capacity,
           OpOutcome.failure (FdbError.other 7)] := by
  have h := capacityRetry_spec csEx FdbError.metacluster_no_capacity
      [OpOutcome.failure (FdbError.other 7)]
      [OpOutcome.failure FdbError.metacluster_no_capacity,
       OpOutcome.failure (FdbError.other 7)]
      (FdbError.other 7)
  have h5 := h.2.2.2.2 (by rfl)
  exact ⟨h.2.1 "c1" (by decide), h5.1, h5.2⟩

theorem resolveTenantCollisions_not_created (s : WorkloadModel)
    (cols : List (String × Int × Int)) (i : Int)
    (h : s.createdTenants i = none) :
    (resolveTenantCollisions s cols).1.createdTenants i = none := by
  induction cols generalizing s with
  | nil => exact h
  | cons c rest ih =>
    obtain ⟨n, d, m⟩ := c
    by_cases hd : (s.createdTenants d).isSome
    · simp only [resolveTenantCollisions, hd, if_true]
      exact ih _ (removeTrackedTenant_not_created s m i h)
    · simp only [resolveTenantCollisions, hd, if_false]
      exact ih _ (removeTrackedTenant_not_created s d i h)

theorem resolveTenantCollisions_length (s : WorkloadModel)
    (cols : List (String × Int × Int)) :
    (resolveTenantCollisions s cols).2.1.length
      + (resolveTenantCollisions s cols).2.2.length = cols.length := by
  induction cols generalizing s with
  | nil => rfl
  | cons c rest ih =>
    obtain ⟨n, d, m⟩ := c
    have h1 := ih (s.removeTrackedTenant m)
    have h2 := ih (s.removeTrackedTenant d)
    by_cases hd : (s.createdTenants d).isSome = true
    · simp [resolveTenantCollisions, hd]
      omega
    · simp [resolveTenantCollisions, hd]
      omega

/-- C4: resolving a tenant-name collision (name, data-cluster id `d`,
management id `m`) deletes the management-side tenant and untracks `m`
when `d` is tracked, and otherwise deletes the data-cluster tenant and
untracks `d`; each collision produces exactly one deletion, so exactly
one side of it survives. -/
theorem resolveTenantCollisions_spec (s : WorkloadModel) (n : String) (d m : Int)
    (rest : List (String × Int × Int)) :
    ((resolveTenantCollisions s ((n, d, m) :: rest)).2.1.length
        + (resolveTenantCollisions s ((n, d, m) :: rest)).2.2.length
      = rest.length + 1)
    ∧ ((s.createdTenants d).isSome = true →
        m ∈ (resolveTenantCollisions s ((n, d, m) :: rest)).2.1
        ∧ (resolveTenantCollisions s ((n, d, m) :: rest)).1.createdTenants m = none)
    ∧ ((s.createdTenants d).isSome = false →
        (n, d) ∈ (resolveTenantCollisions s ((n, d, m) :: rest)).2.2
        ∧ (resolveTenantCollisions s ((n, d, m) :: rest)).1.createdTenants d = none) := by
  refine ⟨by simpa using resolveTenantCollisions_length s ((n, d, m) :: rest), ?_, ?_⟩
  · intro hd
    simp only [resolveTenantCollisions, hd, if_true]
    exact ⟨List.mem_cons_self _ _,
      resolveTenantCollisions_not_created _ rest m (removeTrackedTenant_created_self s m)⟩
  · intro hd
    simp only [resolveTenantCollisions, hd, Bool.false_eq_true, if_false]
    exact ⟨List.mem_cons_self _ _,
      resolveTenantCollisions_not_created _ rest d (removeTrackedTenant_created_self s d)⟩

/-- C4 witness: in `wmEx`, tenant 5 is tracked, so the collision
("x", 5, 9) deletes management tenant 9, while 8 is untracked, so the
collision ("y", 8, 9) deletes data-cluster tenant ("y", 8). -/
theorem resolveTenantCollisions_spec_witness :
    (9 ∈ (resolveTenantCollisions wmEx [("x", 5, 9)]).2.1
      ∧ (resolveTenantCollisions wmEx [("x", 5, 9)]).1.createdTenants 9 = none)
    ∧ (("y", 8) ∈ (resolveTenantCollisions wmEx [("y", 8, 9)]).2.2
      ∧ (resolveTenantCollisions wmEx [("y", 8, 9)]).1.createdTenants 8 = none) :=
  ⟨(resolveTenantCollisions_spec wmEx "x" 5 9 []).2.1 (by rfl),
   (resolveTenantCollisions_spec wmEx "y" 8 9 []).2.2 (by rfl)⟩

theorem removeAllTracked_not_created (s : WorkloadModel) (ts : List Int) (i : Int)
    (h : s.createdTenants i = none) :
    (s.removeAllTracked ts).createdTenants i = none := by
  induction ts generalizing s with
  | nil => exact h
  | cons t rest ih => exact ih _ (removeTrackedTenant_not_created s t i h)

theorem removeAllTracked_created_none (s : WorkloadModel) (ts : List Int) (t : Int)
    (h : t ∈ ts) :
    (s.removeAllTracked ts).createdTenants t = none := by
  induction ts generalizing s with
  | nil => cases h
  | cons t2 rest ih =>
    rcases List.mem_cons.mp h with rfl | h2
    · exact removeAllTracked_not_created _ rest t (removeTrackedTenant_created_self s t)
    · exact ih _ h2

theorem resolveGroupCollisions_not_created (s : WorkloadModel) (clusterName : String)
    (mg dg : String → List Int) (gs : List String) (i : Int)
    (h : s.createdTenants i = none) :
    (resolveGroupCollisions s clusterName mg dg gs).1.createdTenants i = none := by
  induction gs generalizing s with
  | nil => exact h
  | cons g rest ih =>
    by_cases hg : (s.tenantGroups g).map TenantGroupData.cluster = some clusterName
    · simp only [resolveGroupCollisions, hg, if_true]
      exact ih _ (removeAllTracked_not_created s (mg g) i h)
    · simp only [resolveGroupCollisions, hg, if_false]
      exact ih _ (removeAllTracked_not_created s (dg g) i h)

/-- C5: a tenant-group collision on group `g` is resolved as a whole:
if the reference model's last-known cluster for `g` is the data cluster
being processed, every tenant of `g` read from the management directory
is untracked and deleted on the management side; otherwise every tenant
of `g` read from the data cluster is untracked and the whole group is
deleted on the data cluster in one transaction of system-level deletes. -/
theorem resolveGroupCollisions_spec (s : WorkloadModel) (clusterName : String)
    (mg dg : String → List Int) (g : String) (rest : List String)
    (gd : TenantGroupData) (hg : s.tenantGroups g = some gd) :
    (gd.cluster = clusterName →
      ∀ t, t ∈ mg g →
        t ∈ (resolveGroupCollisions s clusterName mg dg (g :: rest)).2.1
        ∧ (resolveGroupCollisions s clusterName mg dg (g :: rest)).1.createdTenants t
            = none)
    ∧ (gd.cluster ≠ clusterName →
        dg g ∈ (resolveGroupCollisions s clusterName mg dg (g :: rest)).2.2
        ∧ ∀ t, t ∈ dg g →
            (resolveGroupCollisions s clusterName mg dg (g :: rest)).1.createdTenants t
              = none) := by
  constructor
  · intro hcl t ht
    have hcond : (s.tenantGroups g).map TenantGroupData.cluster = some clusterName := by
      rw [hg]
      simpa using hcl
    simp only [resolveGroupCollisions, hcond, if_true]
    exact ⟨List.mem_append_left _ ht,
      resolveGroupCollisions_not_created _ clusterName mg dg rest t
        (removeAllTracked_created_none s (mg g) t ht)⟩
  · intro hcl
    have hcond : ¬ (s.tenantGroups g).map TenantGroupData.cluster = some clusterName := by
      rw [hg]
      simpa using hcl
    simp only [resolveGroupCollisions, hcond, if_false]
    refine ⟨List.mem_cons_self _ _, ?_⟩
    intro t ht
    exact resolveGroupCollisions_not_created _ clusterName mg dg rest t
      (removeAllTracked_created_none s (dg g) t ht)

/-- C5 witness: group `g1` is tracked on cluster `c1` in `wmEx`; processed
from `c1` the management side of the group (tenants 5 and 9) is deleted,
processed from `c2` the data-cluster side (tenant 8) is deleted as one
transaction. -/
theorem resolveGroupCollisions_spec_witness :
    (5 ∈ (resolveGroupCollisions wmEx "c1" (fun _ => [5, 9]) (fun _ => [8]) ["g1"]).2.1
      ∧ (resolveGroupCollisions wmEx "c1" (fun _ => [5, 9]) (fun _ => [8])
            ["g1"]).1.createdTenants 5 = none)
    ∧ ([8] ∈ (resolveGroupCollisions wmEx "c2" (fun _ => [5, 9]) (fun _ => [8]) ["g1"]).2.2
      ∧ (resolveGroupCollisions wmEx "c2" (fun _ => [5, 9]) (fun _ => [8])
            ["g1"]).1.createdTenants 8 = none) := by
  constructor
  · exact (resolveGroupCollisions_spec wmEx "c1" (fun _ => [5, 9]) (fun _ => [8]) "g1" []
        { cluster := "c1", tenants := fun i => if i = 5 then true else false }
        rfl).1 rfl 5 (by decide)
  · have h := (resolveGroupCollisions_spec wmEx "c2" (fun _ => [5, 9]) (fun _ => [8]) "g1" []
        { cluster := "c1", tenants := fun i => if i = 5 then true else false }
        rfl).2 (by decide)
    exact ⟨h.1, h.2 8 (by decide)⟩

theorem checkTrackedTenants_ok_mem (s : WorkloadModel) (rm : Bool) (cn : String)
    (tm : List (Int × TenantMapEntry)) (lst : List Int) (tid : Int) :
    (checkTrackedTenants s rm cn tm lst).1 = true → tid ∈ lst →
    (checkTrackedTenant s rm cn tm tid).1 = true := by
  induction lst with
  | nil => intro _ ht; cases ht
  | cons a rest ih =>
    intro h ht
    have hsplit : (checkTrackedTenant s rm cn tm a).1 = true
        ∧ (checkTrackedTenants s rm cn tm rest).1 = true := by
      simpa [checkTrackedTenants, Bool.and_eq_true] using h
    rcases List.mem_cons.mp ht with rfl | h2
    · exact hsplit.1
    · exact ih hsplit.2 h2

theorem checkTrackedTenant_after (s : WorkloadModel) (rm : Bool) (cn : String)
    (tm : List (Int × TenantMapEntry)) (tid : Int)
    (h : (checkTrackedTenant s rm cn tm tid).1 = true)
    (hc : ((s.createdTenants tid).getD TenantData.dfl).createTime
        = AccessTime.AFTER_BACKUP) :
    lookupTenant tm tid = none := by
  simp only [checkTrackedTenant] at h
  rw [hc] at h
  simpa using h

theorem checkTrackedTenant_before (s : WorkloadModel) (rm : Bool) (cn : String)
    (tm : List (Int × TenantMapEntry)) (tid : Int)
    (h : (checkTrackedTenant s rm cn tm tid).1 = true)
    (hc : ((s.createdTenants tid).getD TenantData.dfl).createTime
        = AccessTime.BEFORE_BACKUP) :
    ∃ entry, lookupTenant tm tid = some entry
      ∧ ((s.createdTenants tid).getD TenantData.dfl).cluster = cn
      ∧ ((rm = false
          ∨ ((s.createdTenants tid).getD TenantData.dfl).configureTime.toNat
              ≤ AccessTime.toNat AccessTime.BEFORE_BACKUP) →
          entry.tenantGroup = ((s.createdTenants tid).getD TenantData.dfl).tenantGroup)
      ∧ ((rm = false
          ∨ ((s.createdTenants tid).getD TenantData.dfl).renameTime.toNat
              ≤ AccessTime.toNat AccessTime.BEFORE_BACKUP) →
          entry.tenantName = ((s.createdTenants tid).getD TenantData.dfl).name) := by
  simp only [checkTrackedTenant] at h
  rw [if_pos hc] at h
  cases hl : lookupTenant tm tid with
  | none => simp [hl] at h
  | some entry =>
    simp only [hl, Bool.and_eq_true, decide_eq_true_iff] at h
    refine ⟨entry, rfl, h.1.1, ?_, ?_⟩
    · intro hcond
      have h2 := h.1.2
      rw [if_pos hcond] at h2
      exact of_decide_eq_true h2
    · intro hcond
      have h2 := h.2
      rw [if_pos hcond] at h2
      exact of_decide_eq_true h2

theorem checkTrackedTenant_count (s : WorkloadModel) (rm : Bool) (cn : String)
    (tm : List (Int × TenantMapEntry)) (tid : Int)
    (h : (checkTrackedTenant s rm cn tm tid).1 = true) :
    (checkTrackedTenant s rm cn tm tid).2
      = (if (lookupTenant tm tid).isSome then 1 else 0) := by
  cases hct : ((s.createdTenants tid).getD TenantData.dfl).createTime with
  | BEFORE_BACKUP =>
    obtain ⟨entry, hl, -⟩ := checkTrackedTenant_before s rm cn tm tid h hct
    simp [checkTrackedTenant, hct, hl]
  | AFTER_BACKUP =>
    have hl := checkTrackedTenant_after s rm cn tm tid h hct
    simp [checkTrackedTenant, hct, hl]
  | NONE =>
    simp only [checkTrackedTenant, hct]
    cases hl : lookupTenant tm tid <;> simp [hl]
  | DURING_BACKUP =>
    simp only [checkTrackedTenant, hct]
    cases hl : lookupTenant tm tid <;> simp [hl]

theorem checkTrackedTenants_count (s : WorkloadModel) (rm : Bool) (cn : String)
    (tm : List (Int × TenantMapEntry)) (lst : List Int) :
    (checkTrackedTenants s rm cn tm lst).1 = true →
    (checkTrackedTenants s rm cn tm lst).2
      = lst.countP (fun tid => (lookupTenant tm tid).isSome) := by
  induction lst with
  | nil => intro _; rfl
  | cons a rest ih =>
    intro h
    have hsplit : (checkTrackedTenant s rm cn tm a).1 = true
        ∧ (checkTrackedTenants s rm cn tm rest).1 = true := by
      simpa [checkTrackedTenants, Bool.and_eq_true] using h
    have hhead := checkTrackedTenant_count s rm cn tm a hsplit.1
    have hrest := ih hsplit.2
    simp only [checkTrackedTenants, List.countP_cons, hhead, hrest, decide_eq_true_iff]
    cases hl : (lookupTenant tm a).isSome <;> simp [hl] <;> omega

theorem checkUntrackedTenants_count (s : WorkloadModel) (rm : Bool) (ct : List Int)
    (tm : List (Int × TenantMapEntry)) :
    (checkUntrackedTenants s rm ct tm).2
      = tm.countP (fun p => decide (p.1 ∉ ct)) := by
  induction tm with
  | nil => rfl
  | cons p rest ih =>
    obtain ⟨tid, e⟩ := p
    by_cases h : tid ∈ ct
    · simp [checkUntrackedTenants, h, List.countP_cons, ih]
    · simp [checkUntrackedTenants, h, List.countP_cons, ih]

theorem checkUntrackedTenants_ok_mem (s : WorkloadModel) (rm : Bool) (ct : List Int)
    (tm : List (Int × TenantMapEntry)) :
    (checkUntrackedTenants s rm ct tm).1 = true →
    ∀ tid e, (tid, e) ∈ tm → tid ∉ ct →
      rm = true ∧ s.deletedTenants tid = true := by
  induction tm with
  | nil => intro _ tid e hmem; cases hmem
  | cons p rest ih =>
    intro h tid e hmem hnot
    obtain ⟨tid2, e2⟩ := p
    by_cases h2 : tid2 ∈ ct
    · have htail : (checkUntrackedTenants s rm ct rest).1 = true := by
        simpa [checkUntrackedTenants, h2] using h
      rcases List.mem_cons.mp hmem with heq | hmem2
      · have htid : tid = tid2 := congrArg Prod.fst heq
        subst htid
        exact absurd h2 hnot
      · exact ih htail tid e hmem2 hnot
    · have hh : ((rm && s.deletedTenants tid2) && (checkUntrackedTenants s rm ct rest).1)
          = true := by
        simpa [checkUntrackedTenants, h2] using h
      rw [Bool.and_eq_true, Bool.and_eq_true] at hh
      rcases List.mem_cons.mp hmem with heq | hmem2
      · have : tid = tid2 := congrArg Prod.fst heq
        subst this
        exact ⟨hh.1.1, hh.1.2⟩
      · exact ih hh.2 tid e hmem2 hnot

theorem checkManagementUntracked_ok_mem (s : WorkloadModel) (rm rd : Bool)
    (tm : List (Int × TenantMapEntry)) :
    checkManagementUntracked s rm rd tm = true →
    ∀ tid e, (tid, e) ∈ tm → s.createdTenants tid = none →
      s.deletedTenants tid = true ∧ rm = true ∧ rd = true := by
  induction tm with
  | nil => intro _ tid e hmem; cases hmem
  | cons p rest ih =>
    intro h tid e hmem hnone
    obtain ⟨tid2, e2⟩ := p
    have hsplit : ((if (s.createdTenants tid2).isSome then true
          else s.deletedTenants tid2 && rm && rd) = true)
        ∧ checkManagementUntracked s rm rd rest = true := by
      simpa [checkManagementUntracked, Bool.and_eq_true] using h
    rcases List.mem_cons.mp hmem with heq | hmem2
    · have : tid = tid2 := congrArg Prod.fst heq
      subst this
      have hh := hsplit.1
      rw [if_neg (by simp [hnone])] at hh
      rw [Bool.and_eq_true, Bool.and_eq_true] at hh
      exact ⟨hh.1.1, hh.1.2, hh.2⟩
    · exact ih hsplit.2 tid e hmem2 hnone

theorem checkDataClusterRestored_parts (s : WorkloadModel) (rm : Bool) (cn : String)
    (ct : List Int) (tm : List (Int × TenantMapEntry))
    (h : checkDataClusterRestored s rm cn ct tm = true) :
    ((checkTrackedTenants s rm cn tm ct).1 = true
      ∧ (checkUntrackedTenants s rm ct tm).1 = true)
    ∧ tm.length - (checkUntrackedTenants s rm ct tm).2
        = (checkTrackedTenants s rm cn tm ct).2 := by
  simpa [checkDataClusterRestored, Bool.and_eq_true, decide_eq_true_iff] using h

/-- C2: if the restored-branch consistency check passes, every tracked
tenant of the cluster is classified by its creation access-time —
AFTER_BACKUP tenants are absent from the observed tenant map,
BEFORE_BACKUP tenants are present, DURING_BACKUP tenants are
unconstrained — and the observed map's size equals the number of present
tracked tenants plus the untracked (tombstone-explained) entries. -/
theorem checkDataCluster_accessTime_spec (s : WorkloadModel) (rm : Bool)
    (cn : String) (ct : List Int) (tm : List (Int × TenantMapEntry))
    (h : checkDataClusterRestored s rm cn ct tm = true) :
    (∀ tid, tid ∈ ct →
      ((((s.createdTenants tid).getD TenantData.dfl).createTime
          = AccessTime.AFTER_BACKUP → lookupTenant tm tid = none)
        ∧ (((s.createdTenants tid).getD TenantData.dfl).createTime
          = AccessTime.BEFORE_BACKUP → (lookupTenant tm tid).isSome = true)))
    ∧ tm.length = ct.countP (fun tid => (lookupTenant tm tid).isSome)
        + tm.countP (fun p => decide (p.1 ∉ ct)) := by
  have hparts := checkDataClusterRestored_parts s rm cn ct tm h
  constructor
  · intro tid ht
    have hok := checkTrackedTenants_ok_mem s rm cn tm ct tid hparts.1.1 ht
    constructor
    · intro hc
      exact checkTrackedTenant_after s rm cn tm tid hok hc
    · intro hc
      obtain ⟨entry, hl, -⟩ := checkTrackedTenant_before s rm cn tm tid hok hc
      simp [hl]
  · have hle : (checkUntrackedTenants s rm ct tm).2 ≤ tm.length := by
      rw [checkUntrackedTenants_count]
      exact List.countP_le_length _
    have h1 := checkTrackedTenants_count s rm cn tm ct hparts.1.1
    have h2 := checkUntrackedTenants_count s rm ct tm
    have h3 := hparts.2
    omega

/-- C2 witness: the restored-branch check passes on `wmChk` against
`tmChk`; the AFTER_BACKUP tenant 2 is absent, the BEFORE_BACKUP tenant 1
is present, and the count equation holds. -/
theorem checkDataCluster_accessTime_witness :
    lookupTenant tmChk 2 = none
    ∧ (lookupTenant tmChk 1).isSome = true
    ∧ tmChk.length = [1, 2, 3].countP (fun tid => (lookupTenant tmChk tid).isSome)
        + tmChk.countP (fun p => decide (p.1 ∉ ([1, 2, 3] : List Int))) := by
  have h := checkDataCluster_accessTime_spec wmChk true "c1" [1, 2, 3] tmChk (by decide)
  exact ⟨(h.1 2 (by decide)).1 (by decide), (h.1 1 (by decide)).2 (by decide), h.2⟩

/-- C3 counterexample: the restored-branch check passes on `wmRen`
against `tmRen` for cluster `c1` with management-cluster recovery,
although the stored name `old` differs from the tracked name `new`.  The
rename's access-time is DURING_BACKUP (not BEFORE_BACKUP) and management
recovery did occur, so the claim's stated exception (a BEFORE_BACKUP
rename without management recovery) does not apply, refuting the claim
as stated. -/
theorem beforeBackup_attrs_cex :
    checkDataClusterRestored wmRen true "c1" [1] tmRen = true
    ∧ ((wmRen.createdTenants 1).getD TenantData.dfl).createTime
        = AccessTime.BEFORE_BACKUP
    ∧ ((wmRen.createdTenants 1).getD TenantData.dfl).renameTime
        ≠ AccessTime.BEFORE_BACKUP
    ∧ ((lookupTenant tmRen 1).getD { tenantName := "", tenantGroup := none }).tenantName
        ≠ ((wmRen.createdTenants 1).getD TenantData.dfl).name := by
  decide

/-- C3 (amended): for every tracked BEFORE_BACKUP tenant of a restored
cluster, the checker requires the stored tenant-group and tenant name to
equal the tracked values, except that each match is waived exactly when
the management cluster was recovered and the corresponding
reconfigure/rename happened with access-time later than BEFORE_BACKUP. -/
theorem beforeBackup_attrs_spec (s : WorkloadModel) (rm : Bool) (cn : String)
    (ct : List Int) (tm : List (Int × TenantMapEntry))
    (h : checkDataClusterRestored s rm cn ct tm = true) :
    ∀ tid, tid ∈ ct →
      ((s.createdTenants tid).getD TenantData.dfl).createTime
          = AccessTime.BEFORE_BACKUP →
      ∃ entry, lookupTenant tm tid = some entry
        ∧ ((rm = false
            ∨ ((s.createdTenants tid).getD TenantData.dfl).configureTime.toNat
                ≤ AccessTime.toNat AccessTime.BEFORE_BACKUP) →
            entry.tenantGroup = ((s.createdTenants tid).getD TenantData.dfl).tenantGroup)
        ∧ ((rm = false
            ∨ ((s.createdTenants tid).getD TenantData.dfl).renameTime.toNat
                ≤ AccessTime.toNat AccessTime.BEFORE_BACKUP) →
            entry.tenantName = ((s.createdTenants tid).getD TenantData.dfl).name) := by
  intro tid ht hc
  have hok := checkTrackedTenants_ok_mem s rm cn tm ct tid
      (checkDataClusterRestored_parts s rm cn ct tm h).1.1 ht
  obtain ⟨entry, hl, -, hg, hn⟩ := checkTrackedTenant_before s rm cn tm tid hok hc
  exact ⟨entry, hl, hg, hn⟩

/-- C3 witness: tenant 1 of `wmChk` was neither renamed nor reconfigured,
so both matches are enforced and hold on `tmChk`. -/
theorem beforeBackup_attrs_witness :
    ∃ entry, lookupTenant tmChk 1 = some entry
      ∧ entry.tenantGroup = ((wmChk.createdTenants 1).getD TenantData.dfl).tenantGroup
      ∧ entry.tenantName = ((wmChk.createdTenants 1).getD TenantData.dfl).name := by
  obtain ⟨entry, hl, hg, hn⟩ := beforeBackup_attrs_spec wmChk true "c1" [1, 2, 3] tmChk
      (by decide) 1 (by decide) (by decide)
  exact ⟨entry, hl, hg (Or.inr (by decide)), hn (Or.inr (by decide))⟩

/-- C6: when the consistency checks pass, every tenant id present in a
restored data cluster's tenant map but absent from the tracked set is a
member of the tombstone set and the management cluster was recovered; and
every management-directory entry absent from the tracked set is
tombstoned, with both management-cluster and data-cluster recovery having
occurred.  (The data-cluster code tests membership in the cluster's
tenant set; `hsub` is the model invariant that this set only holds
tracked ids.) -/
theorem untracked_tombstone_spec (s : WorkloadModel) (rm rd : Bool) (cn : String)
    (ct : List Int) (tm mgmtTm : List (Int × TenantMapEntry))
    (h1 : checkDataClusterRestored s rm cn ct tm = true)
    (h2 : checkManagementUntracked s rm rd mgmtTm = true)
    (hsub : ∀ tid, tid ∈ ct → (s.createdTenants tid).isSome = true) :
    (∀ tid e, (tid, e) ∈ tm → s.createdTenants tid = none →
      s.deletedTenants tid = true ∧ rm = true)
    ∧ (∀ tid e, (tid, e) ∈ mgmtTm → s.createdTenants tid = none →
      s.deletedTenants tid = true ∧ rm = true ∧ rd = true) := by
  constructor
  · intro tid e hmem hnone
    have hnotct : tid ∉ ct := by
      intro hct
      have := hsub tid hct
      rw [hnone] at this
      simp at this
    have hu := (checkDataClusterRestored_parts s rm cn ct tm h1).1.2
    have hres := checkUntrackedTenants_ok_mem s rm ct tm hu tid e hmem hnotct
    exact ⟨hres.2, hres.1⟩
  · intro tid e hmem hnone
    exact checkManagementUntracked_ok_mem s rm rd mgmtTm h2 tid e hmem hnone

/-- C6 witness: the checks pass on `wmChk` with `tmChk` and `mgmtTmChk`;
the untracked id 4 in both maps is tombstoned under double recovery. -/
theorem untracked_tombstone_witness :
    wmChk.deletedTenants 4 = true
    ∧ (wmChk.deletedTenants 4 = true ∧ true = true ∧ true = true) := by
  have h := untracked_tombstone_spec wmChk true true "c1" [1, 2, 3] tmChk mgmtTmChk
      (by decide) (by decide) (by decide)
  exact ⟨(h.1 4 { tenantName := "zz", tenantGroup := none } (by decide) (by decide)).1,
    h.2 4 { tenantName := "zz", tenantGroup := none } (by decide) (by decide)⟩
